import Mathlib

/-!
# Trivia API — verification of the HTTP handler layer

Shallow embedding of `backend/flaskr/__init__.py`: the data model
(Question, Category), the pagination helper `paginate_questions`
(including Python's list-slicing semantics with negative indices),
and the seven route handlers, together with theorems settling the
specification claims about them.

The persistent store (`models.py`, absent from the sources: only its
callers are available) is modelled from the spec as a list-backed
collection exposing list-all, filter-by-field, filter-by-exclusion-set,
get-by-id and delete; `Question.query.order_by('id')` is sorting by
ascending id, and the store's "stable default ordering" is the list
order.
-/

namespace Trivia

/-- `QUESTIONS_PER_PAGE = 10` from the source. -/
def QUESTIONS_PER_PAGE : Nat := 10

/-- A Question record: `{id, question, answer, category, difficulty}`.
`id` is the auto-assigned primary key; `category` references a
Category id (not enforced at this layer). -/
structure Question where
  id : Nat
  question : String
  answer : String
  category : Nat
  difficulty : Nat
deriving DecidableEq, Repr

/-- A Category record: `{id, type}`. -/
structure Category where
  id : Nat
  type : String
deriving DecidableEq, Repr

/-- Modelled from the spec: the persistent store backing the handlers
(`models.py` is not among the sources).  It is a collection of
categories and questions; its "stable default ordering" is the order
of the lists. -/
structure Store where
  categories : List Category
  questions : List Question
deriving DecidableEq, Repr

/-- Modelled from the spec: `Question.format()` serializes exactly the
fields `id, question, answer, category, difficulty`, i.e. the whole
record. -/
def Question.format (q : Question) : Question := q

/-- Modelled from the spec: `Question.query.order_by('id')` — all
questions sorted by ascending id. -/
def sortById (l : List Question) : List Question :=
  List.insertionSort (fun a b => a.id ≤ b.id) l

/-- Modelled from the spec: `Category.query.get(id)` / get-by-id — the
record with the given primary key, if any. -/
def getCategory (store : Store) (cid : Nat) : Option Category :=
  store.categories.find? (fun c => c.id == cid)

/-- Modelled from the spec: `Question.query.get(id)` — the question
with the given primary key, if any. -/
def getQuestion (store : Store) (qid : Nat) : Option Question :=
  store.questions.find? (fun q => q.id == qid)

/-- Normalization of one Python slice index against a list of length
`n`: a negative index counts from the end (clamped below at 0), a
non-negative one is clamped above at `n`. -/
def pyNormIdx (n : Nat) (i : Int) : Nat :=
  if i < 0 then (i + n).toNat else min i.toNat n

/-- Python list slicing `l[start:stop]` (step 1): both bounds
normalized, then the elements at indices `start' ≤ k < stop'`. -/
def pySlice (l : List α) (start stop : Int) : List α :=
  let s := pyNormIdx l.length start
  let e := pyNormIdx l.length stop
  (l.drop s).take (e - s)

/-- `paginate_questions(request, selection)`.  The `page` query
parameter is modelled as `Option Int`: `none` when absent or not
parseable as an int, in which case Flask's
`request.args.get('page', 1, type=int)` yields the default 1. -/
def paginate_questions (pageArg : Option Int) (selection : List Question) :
    List Question :=
  let questions := selection.map Question.format
  let page : Int := pageArg.getD 1
  let start := (page - 1) * (QUESTIONS_PER_PAGE : Int)
  let stop := start + (QUESTIONS_PER_PAGE : Int)
  pySlice questions start stop

/-- The fixed three-field JSON error body produced by the registered
error handlers: `{success: false, error: code, message: text}`. -/
structure ErrorBody where
  success : Bool
  error : Nat
  message : String
deriving DecidableEq, Repr

/-- Body of the 404 handler. -/
def notFoundBody : ErrorBody := ⟨false, 404, "resource not found"⟩

/-- Body of the 422 handler. -/
def unprocessableBody : ErrorBody := ⟨false, 422, "unprocessable"⟩

/-- Body of the 400 handler. -/
def badRequestBody : ErrorBody := ⟨false, 400, "bad request"⟩

/-- Outcome of one request: a success body `b`, a handled error
(`abort(code)` routed through one of the three registered error
handlers), or an exception that no handler catches and that therefore
propagates as an unhandled server error. -/
inductive HResult (β : Type) where
  | ok (body : β)
  | handled (e : ErrorBody)
  | serverError
deriving DecidableEq, Repr

/-- Success body of `GET /questions`. -/
structure QuestionsOk where
  success : Bool
  total_questions : Nat
  questions : List Question
  current_category : Option Nat
  categories : List (Nat × String)
deriving DecidableEq, Repr

/-- `GET /questions` (`retrieve_question`): fetch the category map and
all questions ordered by id, paginate with the `page` query parameter,
404 when the resulting slice is empty. -/
def retrieve_question (store : Store) (pageArg : Option Int) :
    HResult QuestionsOk :=
  let categories := store.categories.map (fun c => (c.id, c.type))
  let questions := sortById store.questions
  let current_questions := paginate_questions pageArg questions
  if current_questions.length = 0 then
    .handled notFoundBody
  else
    .ok ⟨true, questions.length, current_questions, none, categories⟩

/-- Success body carrying only `{success: true}`. -/
structure PlainOk where
  success : Bool
deriving DecidableEq, Repr

/-- `DELETE /questions/{id}` (`delete_question`): look up by id;
calling `.delete()` on the `None` of a failed lookup raises inside the
`try`, which is caught and reported as `abort(422)`; a found record is
deleted and only `{success: true}` returned. -/
def delete_question (store : Store) (question_id : Nat) :
    HResult (PlainOk × Store) :=
  match getQuestion store question_id with
  | none => .handled unprocessableBody
  | some _ =>
      .ok (⟨true⟩,
        { store with
            questions := store.questions.filter (fun q => ¬ q.id = question_id) })

/-- JSON body of `POST /questions`: each field read with `.get`, so
each may be absent (no validation). -/
structure CreateBody where
  question : Option String
  answer : Option String
  category : Option Nat
  difficulty : Option Nat
deriving DecidableEq, Repr

/-- `POST /questions` (`create_question`): the whole body-parse /
construct / insert sequence sits in one `try` whose `except` is
`abort(400)`.  `body = none` models a missing or malformed body
(`request.get_json()` yields nothing and `.get` on it raises);
`insertFails` models the store's insert raising.  On success only
`{success: true}` is returned — the created record is not echoed. -/
def create_question (body : Option CreateBody) (insertFails : Bool) :
    HResult PlainOk :=
  match body with
  | none => .handled badRequestBody
  | some _ => if insertFails then .handled badRequestBody else .ok ⟨true⟩

/-- Success body of `POST /search`. -/
structure SearchOk where
  success : Bool
  questions : List Question
  total_questions : Nat
  current_category : Option Nat
deriving DecidableEq, Repr

/-- Case-insensitive substring test
`search_term.lower() in question.question.lower()`. -/
def containsCI (needle haystack : String) : Bool :=
  decide (needle.toLower.toList <:+: haystack.toLower.toList)

/-- `POST /search` (`search_questions`): `searchTerm = none` models a
body without the key, on which `search_term.lower()` raises
`AttributeError`; no handler-level catch exists on this route, so the
fault propagates as an unhandled server error.  Otherwise all
questions are loaded and filtered by case-insensitive containment,
with no pagination. -/
def search_questions (store : Store) (searchTerm : Option String) :
    HResult SearchOk :=
  match searchTerm with
  | none => .serverError
  | some term =>
      let matched_questions :=
        (store.questions.filter (fun q => containsCI term q.question)).map
          Question.format
      .ok ⟨true, matched_questions, matched_questions.length, none⟩

/-- Success body of `GET /categories/{id}/questions`. -/
structure CatQuestionsOk where
  success : Bool
  questions : List Question
  total_questions : Nat
  current_category : Option Nat
deriving DecidableEq, Repr

/-- `GET /categories/{id}/questions` (`get_category_questions`): 404
when the category id is unknown; otherwise the questions with matching
`category` field are paginated (the helper receives the live request,
so the `page` query parameter is read here too) and `total_questions`
is the length of the returned slice. -/
def get_category_questions (store : Store) (category_id : Nat)
    (pageArg : Option Int) : HResult CatQuestionsOk :=
  match getCategory store category_id with
  | none => .handled notFoundBody
  | some _ =>
      let questions := store.questions.filter (fun q => q.category == category_id)
      let current_questions := paginate_questions pageArg questions
      .ok ⟨true, current_questions, current_questions.length, some category_id⟩

/-- Success body of `POST /quizzes`: `question = none` means the field
is absent from the JSON ("quiz complete"). -/
structure QuizOk where
  success : Bool
  question : Option Question
deriving DecidableEq, Repr

/-- `POST /quizzes` (`get_quiz_questions`): filter by category (unless
`quiz_category.id == 0`) and by exclusion of `previous_questions`,
then take `.first()` — the first match under the store's default
ordering.  No match yields `{success: true}` with no question
field. -/
def get_quiz_questions (store : Store) (previous_questions : List Nat)
    (category_id : Nat) : HResult QuizOk :=
  let questions :=
    if category_id ≠ 0 then
      store.questions.filter
        (fun q => q.category == category_id && !(previous_questions.contains q.id))
    else
      store.questions.filter (fun q => !(previous_questions.contains q.id))
  match questions.head? with
  | none => .ok ⟨true, none⟩
  | some q => .ok ⟨true, some q.format⟩

/-! ### Sample stores used as concrete inputs -/

/-- A store with two categories and eleven questions, all in category 1,
ids 1..11 in id order. -/
def store11 : Store :=
  ⟨[⟨1, "Science"⟩, ⟨2, "Art"⟩],
   (List.range 11).map (fun i => ⟨i + 1, "", "", 1, 1⟩)⟩

/-! ### Helper lemmas -/

theorem map_format (l : List Question) : l.map Question.format = l :=
  List.map_id l

theorem filter_head_eq_find (p : α → Bool) (l : List α) :
    (l.filter p).head? = l.find? p := by
  induction l with
  | nil => rfl
  | cons a l ih =>
      by_cases h : p a
      · simp [List.filter_cons, h]
      · simp [List.filter_cons, h, ih]

theorem pyNormIdx_zero (n : Nat) : pyNormIdx n 0 = 0 := by
  simp [pyNormIdx]

theorem pyNormIdx_ten (n : Nat) : pyNormIdx n 10 = min 10 n := by
  simp [pyNormIdx]

theorem pyNormIdx_neg (n k : Nat) (hk : 0 < k) :
    pyNormIdx n (-(k : Int)) = n - k := by
  unfold pyNormIdx
  split <;> omega

theorem pyNormIdx_add_ten (n : Nat) (x : Int) :
    pyNormIdx n (x + 10) ≤ pyNormIdx n x + 10 := by
  unfold pyNormIdx
  split <;> split <;> omega

theorem take_min_length (l : List α) (n : Nat) :
    l.take (min n l.length) = l.take n := by
  rcases Nat.le_total n l.length with h | h
  · rw [Nat.min_eq_left h]
  · rw [Nat.min_eq_right h, List.take_length, List.take_of_length_le h]

theorem pySlice_nil (start stop : Int) : pySlice ([] : List α) start stop = [] := by
  simp [pySlice]

theorem paginate_some (p : Int) (l : List Question) :
    paginate_questions (some p) l = pySlice l ((p - 1) * 10) ((p - 1) * 10 + 10) := by
  simp [paginate_questions, map_format, QUESTIONS_PER_PAGE]

theorem paginate_none (l : List Question) :
    paginate_questions none l = l.take 10 := by
  show pySlice (l.map Question.format) (((1 : Int) - 1) * 10) (((1 : Int) - 1) * 10 + 10) = l.take 10
  rw [map_format]
  show pySlice l 0 (0 + 10) = l.take 10
  simp only [pySlice, Int.zero_add, pyNormIdx_zero, pyNormIdx_ten, List.drop_zero,
    Nat.sub_zero]
  exact take_min_length l 10

theorem paginate_nil (pageArg : Option Int) :
    paginate_questions pageArg ([] : List Question) = [] := by
  cases pageArg with
  | none => rw [paginate_none]; rfl
  | some p => rw [paginate_some]; exact pySlice_nil _ _

theorem pySlice_length_le (l : List α) (x : Int) :
    (pySlice l x (x + 10)).length ≤ 10 := by
  have h := pyNormIdx_add_ten l.length x
  simp only [pySlice, List.length_take]
  omega

theorem paginate_length_le (pageArg : Option Int) (l : List Question) :
    (paginate_questions pageArg l).length ≤ 10 := by
  cases pageArg with
  | none => rw [paginate_none]; exact List.length_take_le _ _
  | some p => rw [paginate_some]; exact pySlice_length_le l _

theorem sortById_perm (l : List Question) : (sortById l).Perm l :=
  List.perm_insertionSort _ l

theorem sortById_length (l : List Question) : (sortById l).length = l.length :=
  (sortById_perm l).length_eq

instance : IsTotal Question (fun a b => a.id ≤ b.id) :=
  ⟨fun a b => Nat.le_total a.id b.id⟩

instance : IsTrans Question (fun a b => a.id ≤ b.id) :=
  ⟨fun _ _ _ h h' => Nat.le_trans h h'⟩

theorem sortById_sorted (l : List Question) :
    List.Sorted (fun a b => a.id ≤ b.id) (sortById l) :=
  List.sorted_insertionSort _ l

theorem paginate_eq_pySlice (pageArg : Option Int) (l : List Question) :
    paginate_questions pageArg l =
      pySlice l ((pageArg.getD 1 - 1) * 10) ((pageArg.getD 1 - 1) * 10 + 10) := by
  simp only [paginate_questions, map_format, QUESTIONS_PER_PAGE, Nat.cast_ofNat]

theorem pyNormIdx_neg_ten (n : Nat) : pyNormIdx n (-10) = n - 10 := by
  unfold pyNormIdx
  split <;> omega

theorem pyNormIdx_neg_twenty (n : Nat) : pyNormIdx n (-20) = n - 20 := by
  unfold pyNormIdx
  split <;> omega

theorem pySlice_neg_ten_zero (l : List α) : pySlice l (-10) 0 = [] := by
  simp [pySlice, pyNormIdx_zero, pyNormIdx_neg_ten]

theorem paginate_page_zero (l : List Question) :
    paginate_questions (some 0) l = [] := by
  rw [paginate_eq_pySlice]
  have e1 : (((some (0 : Int)).getD 1) - 1) * 10 = -10 := by norm_num
  rw [e1]
  have e2 : (-10 : Int) + 10 = 0 := by norm_num
  rw [e2]
  exact pySlice_neg_ten_zero l

theorem paginate_page_neg_one (l : List Question) :
    paginate_questions (some (-1)) l =
      (l.drop (l.length - 20)).take ((l.length - 10) - (l.length - 20)) := by
  rw [paginate_eq_pySlice]
  have e1 : (((some (-1 : Int)).getD 1) - 1) * 10 = -20 := by norm_num
  rw [e1]
  have e2 : (-20 : Int) + 10 = -10 := by norm_num
  rw [e2]
  simp [pySlice, pyNormIdx_neg_ten, pyNormIdx_neg_twenty]

/-! ### Claims -/

/-- Claim C7: for every store, `POST /search` with a body lacking
`searchTerm` dereferences the missing term before any null check and,
with no handler-level catch on this route, the fault propagates as an
unhandled server error — never as one of the handled error bodies. -/
theorem c7_search_missing_term_unhandled (store : Store) :
    search_questions store none = HResult.serverError
    ∧ ∀ e : ErrorBody, search_questions store none ≠ .handled e :=
  ⟨rfl, fun _ h => nomatch h⟩

/-- Witness for C7 at a concrete store. -/
theorem c7_search_missing_term_unhandled_witness :
    search_questions store11 none = HResult.serverError
    ∧ ∀ e : ErrorBody, search_questions store11 none ≠ .handled e :=
  c7_search_missing_term_unhandled store11

/-- Claim C8: on `POST /questions`, a missing body or any insertion
failure yields the handled 400 body `{success: false, error: 400,
message: "bad request"}`; on success the response is only
`{success: true}` (the `PlainOk` body has no further fields — the
created record is not echoed back). -/
theorem c8_create_question_spec (body : Option CreateBody) (insertFails : Bool) :
    (body = none →
      create_question body insertFails = .handled ⟨false, 400, "bad request"⟩)
    ∧ (insertFails = true →
      create_question body insertFails = .handled ⟨false, 400, "bad request"⟩)
    ∧ (∀ b, body = some b → insertFails = false →
        create_question body insertFails = .ok ⟨true⟩) := by
  refine ⟨?_, ?_, ?_⟩
  · rintro rfl; rfl
  · rintro rfl; cases body <;> rfl
  · rintro b rfl rfl; rfl

/-- Witness for C8: missing body, failed insert, and success. -/
theorem c8_create_question_spec_witness :
    create_question none false = .handled ⟨false, 400, "bad request"⟩
    ∧ create_question (some ⟨none, none, none, none⟩) true =
        .handled ⟨false, 400, "bad request"⟩
    ∧ create_question (some ⟨none, none, none, none⟩) false = .ok ⟨true⟩ :=
  ⟨(c8_create_question_spec none false).1 rfl,
   (c8_create_question_spec (some ⟨none, none, none, none⟩) true).2.1 rfl,
   (c8_create_question_spec (some ⟨none, none, none, none⟩) false).2.2
     ⟨none, none, none, none⟩ rfl rfl⟩

/-- Claim C3: `DELETE /questions/{id}` on an absent id yields the
handled 422 body `{success: false, error: 422, message:
"unprocessable"}` (not 404); on a present id the deletion succeeds
with `{success: true}` and the id is afterwards absent from the
store's question list. -/
theorem c3_delete_question_spec (store : Store) (qid : Nat) :
    (getQuestion store qid = none →
      delete_question store qid = .handled ⟨false, 422, "unprocessable"⟩)
    ∧ (∀ q, getQuestion store qid = some q →
        ∃ store', delete_question store qid = .ok (⟨true⟩, store')
          ∧ ∀ p ∈ store'.questions, p.id ≠ qid) := by
  constructor
  · intro h
    simp only [delete_question, h]
    rfl
  · intro q h
    refine ⟨{ store with
        questions := store.questions.filter (fun q => ¬ q.id = qid) }, ?_, ?_⟩
    · simp only [delete_question, h]
    intro p hp
    simp only [List.mem_filter, decide_not, Bool.not_eq_true', decide_eq_false_iff_not] at hp
    exact hp.2

/-- Witness for C3: deleting absent id 99 and present id 1 in `store11`. -/
theorem c3_delete_question_spec_witness :
    delete_question store11 99 = .handled ⟨false, 422, "unprocessable"⟩
    ∧ ∃ store', delete_question store11 1 = .ok (⟨true⟩, store')
        ∧ ∀ p ∈ store'.questions, p.id ≠ 1 :=
  ⟨(c3_delete_question_spec store11 99).1 (by decide),
   (c3_delete_question_spec store11 1).2 ⟨1, "", "", 1, 1⟩ (by decide)⟩

/-- Claim C4: `POST /quizzes` returns the first record, in the store's
default order, whose id is not among `previous_questions` and — when
`quiz_category.id ≠ 0` — whose category matches; with id 0 the
category filter is dropped; no match yields `{success: true}` with no
`question` field (the `Option.map` of `none`), never an error. -/
theorem c4_quiz_first_match_spec (store : Store) (prev : List Nat) (cid : Nat) :
    (cid ≠ 0 →
      get_quiz_questions store prev cid =
        .ok ⟨true, (store.questions.find?
            (fun q => q.category == cid && !(prev.contains q.id))).map
          Question.format⟩)
    ∧ (cid = 0 →
      get_quiz_questions store prev cid =
        .ok ⟨true, (store.questions.find?
            (fun q => !(prev.contains q.id))).map Question.format⟩) := by
  constructor
  · intro h
    simp only [get_quiz_questions, if_pos h, ← filter_head_eq_find]
    cases (store.questions.filter
        (fun q => q.category == cid && !(prev.contains q.id))).head? <;> rfl
  · intro h
    simp only [get_quiz_questions, h, if_neg (by simp : ¬ (0 : Nat) ≠ 0),
      ← filter_head_eq_find]
    cases (store.questions.filter (fun q => !(prev.contains q.id))).head? <;> rfl

/-- Witness for C4: in `store11`, category 1 with nothing seen yields
the first question; category 0 with every id seen yields no question. -/
theorem c4_quiz_first_match_spec_witness :
    get_quiz_questions store11 [] 1 = .ok ⟨true, some ⟨1, "", "", 1, 1⟩⟩
    ∧ get_quiz_questions store11 (List.range 12) 0 = .ok ⟨true, none⟩ :=
  ⟨((c4_quiz_first_match_spec store11 [] 1).1 (by decide)).trans (by decide),
   ((c4_quiz_first_match_spec store11 (List.range 12) 0).2 rfl).trans (by decide)⟩

/-- Claim C5: `GET /categories/{id}/questions` fails — with the handled
404 body — exactly when the category id is unknown; a known category
always yields a success body, and with zero matching questions it is a
success with an empty questions list (unlike the plain listing). -/
theorem c5_category_404_iff_unknown (store : Store) (cid : Nat)
    (pageArg : Option Int) :
    (get_category_questions store cid pageArg = .handled notFoundBody ↔
      getCategory store cid = none)
    ∧ (∀ c, getCategory store cid = some c →
        ∃ ok, get_category_questions store cid pageArg = .ok ok
          ∧ ok.success = true)
    ∧ (∀ c, getCategory store cid = some c →
        store.questions.filter (fun q => q.category == cid) = [] →
        get_category_questions store cid pageArg = .ok ⟨true, [], 0, some cid⟩) := by
  cases hC : getCategory store cid with
  | none =>
      refine ⟨?_, ?_, ?_⟩
      · simp [get_category_questions, hC]
      · intro c hc; exact absurd hc (by simp)
      · intro c hc; exact absurd hc (by simp)
  | some c =>
      refine ⟨?_, ?_, ?_⟩
      · simp [get_category_questions, hC]
      · intro c' _
        refine ⟨⟨true,
            paginate_questions pageArg
              (store.questions.filter (fun q => q.category == cid)),
            (paginate_questions pageArg
              (store.questions.filter (fun q => q.category == cid))).length,
            some cid⟩, ?_, rfl⟩
        simp only [get_category_questions, hC]
      · intro c' _ hfil
        simp only [get_category_questions, hC, hfil, paginate_nil]
        rfl

/-- Witness for C5: in `store11`, unknown category 3 yields the 404
body; category 2 exists but owns no questions and yields an empty
success. -/
theorem c5_category_404_iff_unknown_witness :
    get_category_questions store11 3 none = .handled notFoundBody
    ∧ get_category_questions store11 2 none = .ok ⟨true, [], 0, some 2⟩ :=
  ⟨(c5_category_404_iff_unknown store11 3 none).1.mpr (by decide),
   (c5_category_404_iff_unknown store11 2 none).2.2 ⟨2, "Art"⟩ (by decide)
     (by decide)⟩

/-- Claim C6: `POST /search` with a present `searchTerm` returns
exactly the questions whose text contains the term case-insensitively,
with `total_questions` the length of the returned list,
`current_category` null, and no pagination — all matches returned. -/
theorem c6_search_spec (store : Store) (term : String) :
    ∃ ok, search_questions store (some term) = .ok ok
      ∧ ok.success = true
      ∧ ok.questions = store.questions.filter (fun q => containsCI term q.question)
      ∧ ok.total_questions = ok.questions.length
      ∧ ok.current_category = none
      ∧ ∀ q, q ∈ ok.questions ↔
          q ∈ store.questions ∧
            term.toLower.toList <:+: q.question.toLower.toList := by
  refine ⟨⟨true, store.questions.filter (fun q => containsCI term q.question),
      (store.questions.filter (fun q => containsCI term q.question)).length,
      none⟩, ?_, rfl, rfl, rfl, rfl, ?_⟩
  · simp only [search_questions, map_format]
  · intro q
    simp [List.mem_filter, containsCI]

/-- Witness for C6: searching `store11` for the empty string matches
every question. -/
theorem c6_search_spec_witness :
    ∃ ok, search_questions store11 (some "") = .ok ok
      ∧ ok.success = true
      ∧ ok.questions = store11.questions.filter (fun q => containsCI "" q.question)
      ∧ ok.total_questions = ok.questions.length
      ∧ ok.current_category = none
      ∧ ∀ q, q ∈ ok.questions ↔
          q ∈ store11.questions ∧
            (String.toLower "").toList <:+: q.question.toLower.toList :=
  c6_search_spec store11 ""

/-- Claim C9: in every success of `GET /categories/{id}/questions`,
`total_questions` equals the length of the returned slice, which never
exceeds 10; in particular for a known category owning more than 10
questions, the default request reports `total_questions = 10`, not the
category's full count. -/
theorem c9_category_total_counts_slice (store : Store) (cid : Nat)
    (pageArg : Option Int) :
    (∀ ok, get_category_questions store cid pageArg = .ok ok →
        ok.total_questions = ok.questions.length ∧ ok.questions.length ≤ 10)
    ∧ (∀ c, getCategory store cid = some c →
        10 < (store.questions.filter (fun q => q.category == cid)).length →
        get_category_questions store cid none =
          .ok ⟨true, (store.questions.filter (fun q => q.category == cid)).take 10,
               10, some cid⟩) := by
  constructor
  · intro ok hok
    cases hC : getCategory store cid with
    | none => rw [get_category_questions, hC] at hok; exact absurd hok (by simp)
    | some c =>
        rw [get_category_questions, hC] at hok
        have h := (HResult.ok.injEq _ _).mp hok
        subst h
        exact ⟨rfl, paginate_length_le _ _⟩
  · intro c hc h10
    simp only [get_category_questions, hc, paginate_none]
    congr 1
    simp [List.length_take, Nat.min_eq_left (Nat.le_of_lt h10)]

/-- Witness for C9: category 1 of `store11` owns 11 questions and the
default request reports `total_questions = 10`. -/
theorem c9_category_total_counts_slice_witness :
    get_category_questions store11 1 none =
      .ok ⟨true, (store11.questions.filter (fun q => q.category == 1)).take 10,
           10, some 1⟩ :=
  (c9_category_total_counts_slice store11 1 none).2 ⟨1, "Science"⟩ (by decide)
    (by decide)

/-- Claim C1 as stated is false: the category route hands the live
request to the shared pagination helper, which reads the `page` query
parameter.  With eleven questions in category 1, page 2 returns the
eleventh question, not the first 10, so the response differs from the
page-absent one. -/
theorem c1_category_page_counterexample :
    get_category_questions store11 1 (some 2) ≠
      get_category_questions store11 1 none
    ∧ get_category_questions store11 1 (some 2) =
        .ok ⟨true, [⟨11, "", "", 1, 1⟩], 1, some 1⟩ := by
  constructor <;> decide

/-- Claim C1 (amended): `GET /categories/{id}/questions` does read the
`page` query parameter — for a known category it returns the same
`(page-1)*10` window of the category's questions as the plain listing
helper computes, and only when the parameter is absent (default page
1) is the result the first 10. -/
theorem c1_category_page_read (store : Store) (cid : Nat) (pageArg : Option Int)
    (c : Category) (hc : getCategory store cid = some c) :
    get_category_questions store cid pageArg =
      .ok ⟨true,
        paginate_questions pageArg (store.questions.filter (fun q => q.category == cid)),
        (paginate_questions pageArg
          (store.questions.filter (fun q => q.category == cid))).length,
        some cid⟩
    ∧ paginate_questions none (store.questions.filter (fun q => q.category == cid)) =
        (store.questions.filter (fun q => q.category == cid)).take 10 :=
  ⟨by simp only [get_category_questions, hc], paginate_none _⟩

/-- Witness for the amended C1 at `store11`, category 1, page 2. -/
theorem c1_category_page_read_witness :
    get_category_questions store11 1 (some 2) =
      .ok ⟨true,
        paginate_questions (some 2) (store11.questions.filter (fun q => q.category == 1)),
        (paginate_questions (some 2)
          (store11.questions.filter (fun q => q.category == 1))).length,
        some 1⟩
    ∧ paginate_questions none (store11.questions.filter (fun q => q.category == 1)) =
        (store11.questions.filter (fun q => q.category == 1)).take 10 :=
  c1_category_page_read store11 1 (some 2) ⟨1, "Science"⟩ (by decide)

/-- Claim C2: `GET /questions` sorts all questions by ascending id and
returns the Python slice `[(page-1)*10 : (page-1)*10+10]` of them,
with `total_questions` the count of all questions and
`current_category` null; it yields the handled 404 body exactly when
that slice is empty — which covers page 1 over zero questions. -/
theorem c2_retrieve_question_spec (store : Store) (pageArg : Option Int) :
    (retrieve_question store pageArg = .handled notFoundBody ↔
      paginate_questions pageArg (sortById store.questions) = [])
    ∧ (paginate_questions pageArg (sortById store.questions) ≠ [] →
        retrieve_question store pageArg =
          .ok ⟨true, store.questions.length,
               paginate_questions pageArg (sortById store.questions), none,
               store.categories.map (fun c => (c.id, c.type))⟩)
    ∧ paginate_questions pageArg (sortById store.questions) =
        pySlice (sortById store.questions) ((pageArg.getD 1 - 1) * 10)
          ((pageArg.getD 1 - 1) * 10 + 10)
    ∧ List.Sorted (fun a b : Question => a.id ≤ b.id) (sortById store.questions)
    ∧ (sortById store.questions).Perm store.questions := by
  refine ⟨?_, ?_, paginate_eq_pySlice _ _, sortById_sorted _, sortById_perm _⟩
  · by_cases h : paginate_questions pageArg (sortById store.questions) = []
    · simp [retrieve_question, h]
    · simp [retrieve_question, List.length_eq_zero, h]
  · intro h
    simp only [retrieve_question]
    rw [if_neg (fun hc => h (List.length_eq_zero.mp hc)), sortById_length]

/-- Witness for C2: page 1 over the empty store is the 404 body; the
default page over `store11` returns the first ten of eleven questions
with `total_questions = 11`. -/
theorem c2_retrieve_question_spec_witness :
    retrieve_question ⟨[], []⟩ none = .handled notFoundBody
    ∧ retrieve_question store11 none =
        .ok ⟨true, 11, store11.questions.take 10, none,
             [(1, "Science"), (2, "Art")]⟩ :=
  ⟨(c2_retrieve_question_spec ⟨[], []⟩ none).1.mpr (by decide),
   ((c2_retrieve_question_spec store11 none).2.1 (by decide)).trans (by decide)⟩

/-- Claim C10: `GET /questions?page=0` computes the always-empty
Python slice `[-10:0]` and 404s for every store; negative pages index
from the end of the list — `page=-1` over at least 11 questions
returns a non-empty slice drawn from the last 20 questions. -/
theorem c10_page_zero_and_negative (store : Store) :
    retrieve_question store (some 0) = .handled notFoundBody
    ∧ (11 ≤ store.questions.length →
        ∃ ok, retrieve_question store (some (-1)) = .ok ok
          ∧ ok.questions ≠ []
          ∧ ∀ q ∈ ok.questions,
              q ∈ (sortById store.questions).drop (store.questions.length - 20)) := by
  constructor
  · simp [retrieve_question, paginate_page_zero]
  · intro h11
    have hlen : (paginate_questions (some (-1)) (sortById store.questions)).length ≠ 0 := by
      rw [paginate_page_neg_one]
      simp only [List.length_take, List.length_drop, sortById_length]
      omega
    refine ⟨⟨true, (sortById store.questions).length,
        paginate_questions (some (-1)) (sortById store.questions), none,
        store.categories.map (fun c => (c.id, c.type))⟩, ?_, ?_, ?_⟩
    · simp only [retrieve_question]
      rw [if_neg hlen]
    · intro hnil
      have hnil' : paginate_questions (some (-1)) (sortById store.questions) = [] := hnil
      exact hlen (by rw [hnil']; rfl)
    · intro q hq
      rw [paginate_page_neg_one, sortById_length] at hq
      exact List.mem_of_mem_take hq

/-- Witness for C10 at `store11`, which has exactly 11 questions. -/
theorem c10_page_zero_and_negative_witness :
    retrieve_question store11 (some 0) = .handled notFoundBody
    ∧ ∃ ok, retrieve_question store11 (some (-1)) = .ok ok
        ∧ ok.questions ≠ []
        ∧ ∀ q ∈ ok.questions,
            q ∈ (sortById store11.questions).drop (store11.questions.length - 20) :=
  ⟨(c10_page_zero_and_negative store11).1,
   (c10_page_zero_and_negative store11).2 (by decide)⟩

end Trivia
